import Mathlib

/-!
# PolicyGuard — verification of the action-validation and policy engine

Shallow embedding of the PolicyGuard MCP server (files
`src/tools/validate_action.py`, `src/tools/create_policy.py`,
`src/tools/report_incident.py`, plus the JSON list persistence helper from
`src/core/utils.py`).

Modelling conventions:
* Python dicts with a known schema become structures whose fields are
  `Option`-valued: `some v` means the key is present with value `v`, `none`
  means the key is absent.  Every use site applies the same default that the
  Python `dict.get` call applies.  A JSON `null` stored under a recognized key
  behaves like an absent key at every read site of the modelled code and is
  modelled as `none`.
* `generate_id` and `get_timestamp` draw on the environment; they are modelled
  as explicit string parameters of each operation.
* The on-disk JSON files (`agents.json`, `policies.json`, `audit_log.json`,
  `incidents.json`) are modelled as one `Store` record; a read-modify-write
  of a file is a functional update of the corresponding field.
* A Python exception escaping a tool call is modelled with `Except`: the
  `error` payload of `validate_action` carries the persistent state at the
  moment the exception propagates (file writes already performed are kept).
* `parameters`, `evidence` and `metadata` payloads are parsed by the source
  but never inspected afterwards; they are carried opaquely as the raw
  strings they came from.
-/

/-! ## Pattern matcher (`_match_pattern`, validate_action.py lines 48-62)

The source builds a regular expression from the glob pattern by textually
replacing every `*` with `.*`, then calls
`re.match(f"^{regex_pattern}$", value, re.IGNORECASE)`.

The embedding compiles the replaced text into a token list and runs an
anchored backtracking matcher.  It is faithful to Python `re` on the fragment
actually reachable from glob patterns whose characters are ordinary text,
`.` or `*`, and it reports a compile failure (Python: `re.error` is raised)
for the remaining regex metacharacters; for an unbalanced `(` — the shape
used below — CPython likewise raises.  Python semantics that are modelled
exactly: `.` and `.*` do not match a newline, matching of literals is
ASCII-case-insensitive, and `$` also matches just before a single trailing
newline. -/

/-- The characters `re` treats specially (Python `re` module). -/
def reMetaChars : List Char :=
  ['.', '^', '$', '*', '+', '?', '\x7b', '\x7d', '[', ']', '\\', '|', '(', ')']

/-- `pattern.replace("*", ".*")` from the source, on character lists. -/
def globReplace : List Char → List Char
  | [] => []
  | c :: cs => if c = '*' then '.' :: '*' :: globReplace cs else c :: globReplace cs

/-- One compiled regex token: a literal character, `.`, or `.*`. -/
inductive RTok where
  | lit (c : Char)
  | dot
  | dotStar
deriving Repr, DecidableEq

/-- Compile the replaced pattern text.  `none` models `re.compile` raising
`re.error`.  In the text produced by `globReplace` every `*` immediately
follows a `.`, so the three token shapes cover that image completely. -/
def parseToks : List Char → Option (List RTok)
  | [] => some []
  | '.' :: '*' :: cs => (parseToks cs).map (fun ts => RTok.dotStar :: ts)
  | '.' :: cs => (parseToks cs).map (fun ts => RTok.dot :: ts)
  | c :: cs =>
    if reMetaChars.contains c then none
    else (parseToks cs).map (fun ts => RTok.lit c :: ts)

/-- Try the continuation `k` on every suffix of the value reachable by letting
`.*` consume characters; `.*` cannot consume a newline. -/
def starLoop (k : List Char → Bool) : List Char → Bool
  | [] => k []
  | v :: vs => k (v :: vs) || ((v != '\n') && starLoop k vs)

/-- Anchored matcher for a compiled token list, `re.IGNORECASE` style:
literals compare lower-cased, `.` refuses a newline. -/
def tokMatch : List RTok → List Char → Bool
  | [] => fun vs => vs.isEmpty
  | RTok.lit c :: ts => fun vs =>
    match vs with
    | [] => false
    | v :: vs' => (c.toLower == v.toLower) && tokMatch ts vs'
  | RTok.dot :: ts => fun vs =>
    match vs with
    | [] => false
    | v :: vs' => (v != '\n') && tokMatch ts vs'
  | RTok.dotStar :: ts => fun vs => starLoop (tokMatch ts) vs

/-- `re.match("^R$", value)`: the anchored regex matches the whole value, or
— a Python quirk of `$` — the value minus a single trailing newline. -/
def reFullMatch (ts : List RTok) (vs : List Char) : Bool :=
  tokMatch ts vs ||
    (match vs.getLast? with
     | some c => if c = '\n' then tokMatch ts vs.dropLast else false
     | none => false)

/-- `_match_pattern` (validate_action.py lines 48-62).  `some b` is a normal
boolean return, `none` models the call raising `re.error`. -/
def match_pattern (pattern value : String) : Option Bool :=
  if pattern = "*" then some true
  else
    match parseToks (globReplace pattern.toList) with
    | none => none
    | some ts => some (reFullMatch ts value.toList)

/-! ### The specification's glob semantics

Modelled from the spec's words (spec §4.1), for comparison with
`match_pattern`: `*` expands to zero or more arbitrary characters, every
other pattern character matches literally, comparison is case-insensitive
and anchored at both ends. -/

/-- Try the continuation `k` on every suffix of the value: a spec-side `*`
may consume any characters, newlines included. -/
def specStarLoop (k : List Char → Bool) : List Char → Bool
  | [] => k []
  | v :: vs => k (v :: vs) || specStarLoop k vs

/-- Spec-side glob matcher: `*` matches any sequence of characters (including
newlines), all other characters match literally up to case. -/
def specGlobMatch : List Char → List Char → Bool
  | [] => fun vs => vs.isEmpty
  | c :: ps => fun vs =>
    if c = '*' then specStarLoop (specGlobMatch ps) vs
    else
      match vs with
      | [] => false
      | v :: vs' => (c.toLower == v.toLower) && specGlobMatch ps vs'

/-- Characters on which the regex built from a glob is a faithful model of
Python `re`: anything that is not a metacharacter, plus `*` and `.`. -/
def safeRegexChar (c : Char) : Bool :=
  !(reMetaChars.contains c) || c = '*' || c = '.'

/-- Characters on which the built regex has exactly the spec's glob meaning:
anything that is not a regex metacharacter, plus `*` itself. -/
def plainGlobChar (c : Char) : Bool :=
  !(reMetaChars.contains c) || c = '*'

/-- The token list the glob-to-regex conversion produces on a pattern of
`plainGlobChar` characters: `*` becomes `.*`, everything else a literal. -/
def globToks : List Char → List RTok
  | [] => []
  | c :: cs => if c = '*' then RTok.dotStar :: globToks cs else RTok.lit c :: globToks cs

/-! ## Data model

Dict-shaped records from `agents.json`, `policies.json`, `audit_log.json`
and `incidents.json`.  `Option` fields record key presence. -/

/-- An agent record (written by `register_agent`, auto-registration in
`validate_action`, and suspension in `report_incident`).  The `metadata`
payload is parsed JSON that no modelled code ever reads; it is carried as the
raw text it was parsed from. -/
structure Agent where
  agent_id : Option String := none
  name : Option String := none
  description : Option String := none
  trust_level : Option String := none
  allowed_tools : Option (List String) := none
  denied_tools : Option (List String) := none
  metadata : Option String := none
  status : Option String := none
  registered_at : Option String := none
  updated_at : Option String := none
  auto_registered : Option Bool := none
  suspended_at : Option String := none
  suspension_reason : Option String := none
deriving Repr, DecidableEq

/-- A rule condition.  The four recognized keys are explicit; `extra` lists
any other keys present (their values are never read by the engine, and a
recognized key holding JSON `null` reads back like an absent key everywhere,
so it is also represented in `extra`).  A Python-empty condition dict is one
with no recognized key and no extra key. -/
structure Condition where
  tool_pattern : Option String := none
  action_type : Option String := none
  trust_level_at_least : Option String := none
  trust_level_below : Option String := none
  extra : List String := []
deriving Repr, DecidableEq

/-- Truthiness of the condition dict: `if not condition` in
`_validate_policy_rules`. -/
def Condition.isEmptyDict (c : Condition) : Bool :=
  c.tool_pattern.isNone && c.action_type.isNone && c.trust_level_at_least.isNone &&
    c.trust_level_below.isNone && c.extra.isEmpty

/-- A policy rule: `rule.get("condition", {})`, `rule.get("action", "deny")`,
`rule.get("message", ...)`. -/
structure Rule where
  condition : Option Condition := none
  action : Option String := none
  message : Option String := none
deriving Repr, DecidableEq

/-- A policy record. -/
structure Policy where
  id : Option String := none
  name : Option String := none
  description : Option String := none
  rules : Option (List Rule) := none
  priority : Option Int := none
  enabled : Option Bool := none
  created_at : Option String := none
  updated_at : Option String := none
deriving Repr, DecidableEq

/-- `str(x)` of an optional string, as Python prints it inside an f-string:
an absent value prints as `None`. -/
def pyStrOpt : Option String → String
  | some s => s
  | none => "None"

/-- The `trust_levels` dict (validate_action.py line 85). -/
def trust_levels : List (String × Nat) :=
  [("low", 1), ("medium", 2), ("high", 3), ("admin", 4)]

/-- `trust_levels.get(s, 1)`. -/
def trustScore (s : String) : Nat :=
  (trust_levels.lookup s).getD 1

/-- Result dict of `_evaluate_policies`.  The Python code reads it only
through `.get("allowed", False)`, `.get("require_approval", False)` and
`.get("reason", "")`; `require_approval` defaults to `false` exactly as the
absent key does. -/
structure EvalResult where
  allowed : Bool
  require_approval : Bool := false
  reason : String
  policy_matched : String
deriving Repr, DecidableEq

/-! ## Decision evaluator (`_evaluate_policies`, validate_action.py 65-168)

A Python exception escaping the evaluation (a malformed pattern reaching
`re.match`) is the `Except.error` case. -/

/-- The agents dict from `agents.json`. -/
abbrev AgentsMap := String → Option Agent

/-- One `for pattern in patterns: if _match_pattern(pattern, value): ...`
scan, stopping at the first match; a malformed pattern reached before a
match raises. -/
def anyPatternMatches (patterns : List String) (value : String) : Except Unit Bool :=
  match patterns with
  | [] => Except.ok false
  | p :: ps =>
    match match_pattern p value with
    | none => Except.error ()
    | some true => Except.ok true
    | some false => anyPatternMatches ps value

/-- `if pat and not _match_pattern(pat, v): continue` — returns `true` when
the rule must be skipped because a present, non-empty pattern fails to
match. -/
def skipByMismatch (pat : Option String) (value : String) : Except Unit Bool :=
  if pat.getD "" ≠ "" then
    match match_pattern (pat.getD "") value with
    | none => Except.error ()
    | some b => Except.ok (!b)
  else Except.ok false

/-- The trust-threshold checks of one rule (validate_action.py lines
130-161), reached when the pattern conditions did not skip the rule.  First
the `trust_level_at_least` clause: it returns a denial exactly when the
clause is present (truthy), the agent's score is below the required score
and the rule's action is `deny`; in every other case control falls through
to the `trust_level_below` clause. -/
def evalRuleBelow (policy : Policy) (rule : Rule) (trust_level : String)
    (agent_trust_score : Nat) : Option EvalResult :=
  let condition := rule.condition.getD {}
  let below_trust := condition.trust_level_below.getD ""
  if below_trust ≠ "" then
    if agent_trust_score < trustScore below_trust then
      let action := rule.action.getD "deny"
      if action = "deny" then
        some { allowed := false,
               reason := rule.message.getD
                 ("Access denied by policy \x27" ++ pyStrOpt policy.id ++ "\x27"),
               policy_matched := policy.id.getD "unknown" }
      else if action = "require_approval" then
        some { allowed := false, require_approval := true,
               reason := rule.message.getD "This action requires human approval",
               policy_matched := policy.id.getD "unknown" }
      else none
    else none
  else none

/-- The `trust_level_at_least` clause followed by the `trust_level_below`
clause. -/
def evalRuleTrust (policy : Policy) (rule : Rule) (target trust_level : String)
    (agent_trust_score : Nat) : Option EvalResult :=
  let condition := rule.condition.getD {}
  let required_trust := condition.trust_level_at_least.getD ""
  if required_trust ≠ "" ∧ agent_trust_score < trustScore required_trust ∧
      rule.action.getD "deny" = "deny" then
    some { allowed := false,
           reason := "Tool \x27" ++ target ++ "\x27 requires trust level \x27" ++
             required_trust ++ "\x27, agent has \x27" ++ trust_level ++ "\x27",
           policy_matched := policy.id.getD "unknown" }
  else evalRuleBelow policy rule trust_level agent_trust_score

/-- Evaluate one rule of one policy (the body of the inner loop,
validate_action.py lines 117-161).  `some r` is a decisive early return,
`none` falls through to the next rule. -/
def evalRule (policy : Policy) (rule : Rule) (action_type target trust_level : String)
    (agent_trust_score : Nat) : Except Unit (Option EvalResult) :=
  let condition := rule.condition.getD {}
  match skipByMismatch condition.tool_pattern target with
  | Except.error e => Except.error e
  | Except.ok skip1 =>
    if skip1 then Except.ok none
    else
      match skipByMismatch condition.action_type action_type with
      | Except.error e => Except.error e
      | Except.ok skip2 =>
        if skip2 then Except.ok none
        else Except.ok (evalRuleTrust policy rule target trust_level agent_trust_score)

/-- The inner `for rule in rules` loop. -/
def evalRules (policy : Policy) (rules : List Rule) (action_type target trust_level : String)
    (agent_trust_score : Nat) : Except Unit (Option EvalResult) :=
  match rules with
  | [] => Except.ok none
  | r :: rs =>
    match evalRule policy r action_type target trust_level agent_trust_score with
    | Except.error e => Except.error e
    | Except.ok (some res) => Except.ok (some res)
    | Except.ok none => evalRules policy rs action_type target trust_level agent_trust_score

/-- The outer `for policy in policies` loop, skipping disabled policies. -/
def evalPolicies (policies : List Policy) (action_type target trust_level : String)
    (agent_trust_score : Nat) : Except Unit (Option EvalResult) :=
  match policies with
  | [] => Except.ok none
  | p :: ps =>
    if p.enabled.getD true then
      match evalRules p (p.rules.getD []) action_type target trust_level agent_trust_score with
      | Except.error e => Except.error e
      | Except.ok (some res) => Except.ok (some res)
      | Except.ok none => evalPolicies ps action_type target trust_level agent_trust_score
    else evalPolicies ps action_type target trust_level agent_trust_score

/-- `_evaluate_policies` (validate_action.py lines 65-168).  `parameters` is
the parsed-parameters payload; the source receives it and never uses it. -/
def evaluate_policies (action_type target agent_id parameters : String)
    (agents : AgentsMap) (policies : List Policy) : Except Unit EvalResult :=
  let agent := (agents agent_id).getD {}
  let trust_level := agent.trust_level.getD "low"
  let allowed_tools := agent.allowed_tools.getD []
  let denied_tools := agent.denied_tools.getD []
  let agent_trust_score := trustScore trust_level
  let deniedScan : Except Unit (Option EvalResult) :=
    if denied_tools ≠ [] then
      match anyPatternMatches denied_tools target with
      | Except.error e => Except.error e
      | Except.ok true =>
        Except.ok (some { allowed := false,
                          reason := "Tool \x27" ++ target ++
                            "\x27 is explicitly denied for agent \x27" ++ agent_id ++ "\x27",
                          policy_matched := "agent_denied_tools" })
      | Except.ok false => Except.ok none
    else Except.ok none
  match deniedScan with
  | Except.error e => Except.error e
  | Except.ok (some r) => Except.ok r
  | Except.ok none =>
    let allowedScan : Except Unit (Option EvalResult) :=
      if allowed_tools ≠ [] ∧ allowed_tools ≠ ["*"] then
        match anyPatternMatches allowed_tools target with
        | Except.error e => Except.error e
        | Except.ok true => Except.ok none
        | Except.ok false =>
          Except.ok (some { allowed := false,
                            reason := "Tool \x27" ++ target ++
                              "\x27 is not in allowed list for agent \x27" ++ agent_id ++ "\x27",
                            policy_matched := "agent_allowed_tools" })
      else Except.ok none
    match allowedScan with
    | Except.error e => Except.error e
    | Except.ok (some r) => Except.ok r
    | Except.ok none =>
      match evalPolicies policies action_type target trust_level agent_trust_score with
      | Except.error e => Except.error e
      | Except.ok (some res) => Except.ok res
      | Except.ok none =>
        Except.ok { allowed := true, reason := "Action permitted by default policy",
                    policy_matched := "default_allow" }

/-! ## Persistence (`src/core/utils.py`) and the audit/incident records -/

/-- `append_to_json_list` (utils.py lines 161-182): append, keep the last
`max_items`. -/
def append_to_json_list (xs : List α) (item : α) (max_items : Nat) : List α :=
  let data := xs ++ [item]
  if data.length > max_items then data.drop (data.length - max_items) else data

/-- The `parameters` sub-dict of an audit entry.  Each writing tool stores a
different shape; the engine never reads any of them back. -/
inductive AuditParams where
  | validation (raw_parameters : String)
  | policyManagement (operation : String) (rules_count : Nat) (enabled : Bool)
  | incidentReport (incident_type severity related_agent : String)
deriving Repr, DecidableEq

/-- The `action` sub-dict of an audit entry. -/
structure AuditAction where
  type : String
  target : String
  parameters : AuditParams
  context : Option String := none
deriving Repr, DecidableEq

/-- The `evaluation` sub-dict of an audit entry. -/
structure Evaluation where
  allowed : Bool
  require_approval : Option Bool := none
  reason : String
deriving Repr, DecidableEq

/-- One entry of `audit_log.json`. -/
structure AuditEntry where
  entry_id : String
  action_id : Option String := none
  timestamp : String
  agent_id : String
  action : AuditAction
  evaluation : Evaluation
deriving Repr, DecidableEq

/-- One entry of `incidents.json` (union of the shapes written by
`validate_action` and `report_incident`).  `evidence` is an opaque payload
(the parsed JSON is never read back). -/
structure Incident where
  incident_id : String
  timestamp : String
  type : String
  severity : String
  agent_id : Option String := none
  action_id : Option String := none
  details : Option String := none
  description : Option String := none
  evidence : Option String := none
  recommended_action : Option String := none
  status : Option String := none
  resolution : Option String := none
deriving Repr, DecidableEq

/-- The four JSON files of the data directory. -/
structure Store where
  agents : AgentsMap
  policies : List Policy
  audit_log : List AuditEntry
  incidents : List Incident

/-! ## `validate_action` (validate_action.py lines 171-299) -/

/-- The result dict returned (as JSON) by `validate_action`.  In the
suspended-agent branch the source omits the `require_approval` key. -/
structure ValidateResult where
  action_id : String
  allowed : Bool
  require_approval : Option Bool := none
  reason : String
  warnings : List String
deriving Repr, DecidableEq

/-- The agent record auto-registration writes (validate_action.py lines
226-233).  Note: no `status`, `allowed_tools` or `denied_tools` keys. -/
def auto_register_record (agent_id timestamp : String) : Agent :=
  { agent_id := some agent_id,
    name := some ("Auto-registered: " ++ agent_id),
    trust_level := some "low",
    registered_at := some timestamp,
    auto_registered := some true }

/-- The shared tail of `validate_action` (lines 264-299): append the audit
entry, and on a non-allowed result also append a `policy_violation`
incident of severity `medium` correlated by `action_id`. -/
def validate_finish (action_type target agent_id parameters context : String)
    (action_id entry_id incident_id timestamp : String)
    (result : ValidateResult) (store : Store) : Store :=
  let audit_entry : AuditEntry :=
    { entry_id := entry_id,
      action_id := some action_id,
      timestamp := timestamp,
      agent_id := agent_id,
      action := { type := action_type, target := target,
                  parameters := AuditParams.validation parameters,
                  context := some context },
      evaluation := { allowed := result.allowed,
                      require_approval := some (result.require_approval.getD false),
                      reason := result.reason } }
  let store := { store with
                 audit_log := append_to_json_list store.audit_log audit_entry 1000 }
  if result.allowed = false then
    let incident : Incident :=
      { incident_id := incident_id,
        timestamp := timestamp,
        type := "policy_violation",
        severity := "medium",
        agent_id := some agent_id,
        action_id := some action_id,
        details := some ("Agent \x27" ++ agent_id ++ "\x27 attempted \x27" ++ action_type ++
          "\x27 on \x27" ++ target ++ "\x27 - DENIED: " ++ result.reason) }
    { store with incidents := append_to_json_list store.incidents incident 1000 }
  else store

/-- `validate_action` (validate_action.py lines 171-299).  `parameters` is
the raw parameters payload (the source JSON-parses it, defaulting to an
empty dict, and only ever stores the result in the audit entry).  An
`Except.error s` outcome models the Python call raising (a malformed
pattern reaching `re.match`); `s` is the persistent state at that moment —
an auto-registration write that already happened is kept. -/
def validate_action (action_type target agent_id parameters context : String)
    (action_id entry_id incident_id timestamp : String)
    (store : Store) : Except Store (ValidateResult × Store) :=
  let agents0 := store.agents
  let agents := if (agents0 agent_id).isNone then
      fun k => if k = agent_id then some (auto_register_record agent_id timestamp)
               else agents0 k
    else agents0
  let store := { store with agents := agents }
  let agent := (agents agent_id).getD {}
  if agent.status = some "suspended" then
    let result : ValidateResult :=
      { action_id := action_id,
        allowed := false,
        reason := "Agent \x27" ++ agent_id ++ "\x27 is suspended",
        warnings := [] }
    Except.ok (result, validate_finish action_type target agent_id parameters context
      action_id entry_id incident_id timestamp result store)
  else
    match evaluate_policies action_type target agent_id parameters agents store.policies with
    | Except.error _ => Except.error store
    | Except.ok eval_result =>
      let result : ValidateResult :=
        { action_id := action_id,
          allowed := eval_result.allowed,
          require_approval := some eval_result.require_approval,
          reason := eval_result.reason,
          warnings := [] }
      Except.ok (result, validate_finish action_type target agent_id parameters context
        action_id entry_id incident_id timestamp result store)

/-! ## `create_policy` (create_policy.py) -/

/-- Result dict of `create_policy`. -/
structure CreateResult where
  success : Bool
  policy_id : String
  message : String
deriving Repr, DecidableEq

/-- The list of valid rule actions (create_policy.py line 46), printed in the
error message the way Python prints a list of strings. -/
def valid_actions : List String := ["allow", "deny", "require_approval"]

/-- `_validate_policy_rules` inner loop from index `i` (create_policy.py
lines 48-58).  The `isinstance(rule, dict)` guard is vacuous in the typed
embedding. -/
def validate_rules_from (i : Nat) : List Rule → Bool × String
  | [] => (true, "")
  | rule :: rest =>
    let condition := rule.condition.getD {}
    if condition.isEmptyDict then
      (false, "Rule " ++ toString i ++ " must have a \x27condition\x27 object")
    else
      let action := rule.action.getD "deny"
      if !(valid_actions.contains action) then
        (false, "Rule " ++ toString i ++ " has invalid action \x27" ++ action ++
          "\x27. Must be one of: [\x27allow\x27, \x27deny\x27, \x27require_approval\x27]")
      else validate_rules_from (i + 1) rest

/-- `_validate_policy_rules` (create_policy.py lines 37-60). -/
def validate_policy_rules (rules : List Rule) : Bool × String :=
  if rules = [] then (false, "Policy must have at least one rule")
  else validate_rules_from 0 rules

/-- `policy.get("priority", 0)`, the sort key. -/
def policyPriority (p : Policy) : Int :=
  p.priority.getD 0

/-- Stable insertion into a descending-priority list: the new element goes
before the first strictly smaller key, after all keys ≥ its own. -/
def insertDesc (x : Policy) : List Policy → List Policy
  | [] => [x]
  | y :: ys => if policyPriority x ≤ policyPriority y then y :: insertDesc x ys
               else x :: y :: ys

/-- `policies.sort(key=..., reverse=True)` — Python's sort is stable, and a
stable sort by a key is unique, so this insertion sort computes it. -/
def sortByPriorityDesc (policies : List Policy) : List Policy :=
  policies.foldr insertDesc []

/-- `create_policy` (create_policy.py lines 63-188), after the JSON parse of
the `rules` argument (a parse failure returns a failed result without
touching the store and without reaching this logic). -/
def create_policy (policy_id name description : String) (rules_list : List Rule)
    (priority : Int) (enabled : Bool) (timestamp entry_id : String)
    (store : Store) : CreateResult × Store :=
  let v := validate_policy_rules rules_list
  if v.1 = false then
    ({ success := false, policy_id := policy_id,
       message := "Invalid policy rules: " ++ v.2 }, store)
  else
    let policies := store.policies
    let existing_idx := policies.findIdx? (fun p => p.id == some policy_id)
    let is_update := existing_idx.isSome
    let created_at := match existing_idx with
      | some i => ((policies.get? i).bind (fun p => p.created_at)).getD timestamp
      | none => timestamp
    let policy_record : Policy :=
      { id := some policy_id,
        name := some name,
        description := some description,
        rules := some rules_list,
        priority := some priority,
        enabled := some enabled,
        created_at := some created_at,
        updated_at := some timestamp }
    let policies := match existing_idx with
      | some i => policies.set i policy_record
      | none => policies ++ [policy_record]
    let policies := sortByPriorityDesc policies
    let audit_entry : AuditEntry :=
      { entry_id := entry_id,
        timestamp := timestamp,
        agent_id := "guardian-system",
        action := { type := "policy_management", target := policy_id,
                    parameters := AuditParams.policyManagement
                      (if is_update then "update" else "create") rules_list.length enabled },
        evaluation := { allowed := true, reason := "Policy management completed" } }
    let store := { store with
                   policies := policies,
                   audit_log := append_to_json_list store.audit_log audit_entry 1000 }
    ({ success := true, policy_id := policy_id,
       message := "Policy \x27" ++ name ++ "\x27 (" ++ policy_id ++ ") " ++
         (if is_update then "updated" else "created") ++ " successfully with " ++
         toString rules_list.length ++ " rules" }, store)

/-! ## `report_incident` (report_incident.py) -/

/-- Result dict of `report_incident`. -/
structure IncidentResult where
  incident_id : String
  success : Bool
  message : String
  agent_suspended : Bool
  severity : String
  type : String
deriving Repr, DecidableEq

/-- Valid incident types (report_incident.py lines 90-98). -/
def valid_incident_types : List String :=
  ["policy_violation", "suspicious_activity", "unauthorized_access",
   "rate_limit_exceeded", "data_exfiltration", "configuration_error", "other"]

/-- Valid severities (report_incident.py line 103). -/
def valid_severities : List String := ["low", "medium", "high", "critical"]

/-- The severity coercion (report_incident.py lines 103-105): unknown
severities become `medium`. -/
def coercedSeverity (severity : String) : String :=
  if valid_severities.contains severity then severity else "medium"

/-- The incident-type coercion (report_incident.py lines 90-100): unknown
types become `other`. -/
def coercedIncidentType (incident_type : String) : String :=
  if valid_incident_types.contains incident_type then incident_type else "other"

/-- The auto-suspension step (report_incident.py lines 130-139): on a
critical severity and a truthy (non-empty) agent id present in the store,
set status, suspension timestamp and reason; returns the `agent_suspended`
flag and the updated agents dict. -/
def suspendOnCritical (severity agent_id incident_id timestamp : String)
    (agents : AgentsMap) : Bool × AgentsMap :=
  if severity = "critical" ∧ agent_id ≠ "" then
    match agents agent_id with
    | some a =>
      let a' := { a with
                  status := some "suspended",
                  suspended_at := some timestamp,
                  suspension_reason := some
                    ("Auto-suspended due to critical incident: " ++ incident_id) }
      (true, fun k => if k = agent_id then some a' else agents k)
    | none => (false, agents)
  else (false, agents)

/-- `report_incident` (report_incident.py lines 36-174).  `evidence` is the
raw evidence payload, carried opaquely (the parsed dict, or the
`{"raw": ...}` fallback, is only stored, never read). -/
def report_incident (incident_type severity description agent_id evidence
    recommended_action : String) (incident_id entry_id timestamp : String)
    (store : Store) : IncidentResult × Store :=
  let incident_type := coercedIncidentType incident_type
  let severity := coercedSeverity severity
  let incident : Incident :=
    { incident_id := incident_id,
      timestamp := timestamp,
      type := incident_type,
      severity := severity,
      description := some description,
      agent_id := if agent_id = "" then none else some agent_id,
      evidence := some evidence,
      recommended_action := some recommended_action,
      status := some "open",
      resolution := none }
  let store := { store with
                 incidents := append_to_json_list store.incidents incident 1000 }
  let suspend := suspendOnCritical severity agent_id incident_id timestamp store.agents
  let agent_suspended := suspend.1
  let store := { store with agents := suspend.2 }
  let audit_entry : AuditEntry :=
    { entry_id := entry_id,
      timestamp := timestamp,
      agent_id := "guardian-system",
      action := { type := "incident_report", target := incident_id,
                  parameters := AuditParams.incidentReport incident_type severity agent_id },
      evaluation := { allowed := true, reason := "Incident logged for investigation" } }
  let store := { store with
                 audit_log := append_to_json_list store.audit_log audit_entry 1000 }
  let message := "Incident \x27" ++ incident_id ++ "\x27 logged with severity \x27" ++
    severity ++ "\x27" ++
    (if agent_suspended then
      " - Agent \x27" ++ agent_id ++ "\x27 has been automatically suspended"
     else "")
  ({ incident_id := incident_id,
     success := true,
     message := message,
     agent_suspended := agent_suspended,
     severity := severity,
     type := incident_type }, store)

/-! ## Concrete fixtures used by witnesses and counterexamples -/

/-- An empty data directory. -/
def emptyStore : Store :=
  { agents := fun _ => none, policies := [], audit_log := [], incidents := [] }

/-- A suspended medium-trust agent. -/
def suspAgent : Agent :=
  { agent_id := some "s-agent", name := some "S", trust_level := some "medium",
    status := some "suspended", allowed_tools := some ["*"], denied_tools := some [] }

/-- A policy whose only rule carries a malformed tool pattern: evaluating it
against any target raises. -/
def malformedPolicy : Policy :=
  { id := some "mal", name := some "Mal", priority := some 100, enabled := some true,
    rules := some [{ condition := some { tool_pattern := some "(" },
                     action := some "deny", message := some "boom" }] }

/-- Store for the suspension claim: a suspended agent together with a policy
that raises if any rule is ever consulted. -/
def suspStore : Store :=
  { agents := fun k => if k = "s-agent" then some suspAgent else none,
    policies := [malformedPolicy], audit_log := [], incidents := [] }

/-- An active agent whose denied-tools list has a malformed pattern before a
match-everything pattern. -/
def deniedRaiseAgent : Agent :=
  { agent_id := some "d-agent", name := some "D", trust_level := some "high",
    status := some "active", denied_tools := some ["(", "*"] }

/-- Store for the deny-list counterexample. -/
def deniedRaiseStore : Store :=
  { agents := fun k => if k = "d-agent" then some deniedRaiseAgent else none,
    policies := [], audit_log := [], incidents := [] }

/-- An active agent with a well-formed deny list, a permissive allow list and
an allow-everything policy around it. -/
def denyListAgent : Agent :=
  { agent_id := some "db-agent", name := some "DB", trust_level := some "admin",
    status := some "active", allowed_tools := some ["*"], denied_tools := some ["db_*"] }

/-- A policy whose only rule would allow everything. -/
def allowAllPolicy : Policy :=
  { id := some "allow-all", name := some "Allow", priority := some 100,
    enabled := some true,
    rules := some [{ condition := some { tool_pattern := some "*" },
                     action := some "allow", message := some "ok" }] }

/-- Store for the deny-list precedence witness. -/
def denyListStore : Store :=
  { agents := fun k => if k = "db-agent" then some denyListAgent else none,
    policies := [allowAllPolicy], audit_log := [], incidents := [] }

/-- An active low-trust agent with no tool restrictions. -/
def lowAgent : Agent :=
  { agent_id := some "low-agent", name := some "L", trust_level := some "low",
    status := some "active", allowed_tools := some [], denied_tools := some [] }

/-- A policy requiring approval for deletions below admin trust. -/
def approvalPolicy : Policy :=
  { id := some "approval", name := some "Approval", priority := some 100,
    enabled := some true,
    rules := some [{ condition := some { tool_pattern := some "delete_*",
                                         trust_level_below := some "admin" },
                     action := some "require_approval",
                     message := some "Needs a human" }] }

/-- Store for the require-approval witness. -/
def approvalStore : Store :=
  { agents := fun k => if k = "low-agent" then some lowAgent else none,
    policies := [approvalPolicy], audit_log := [], incidents := [] }

/-- An active agent stored under the empty-string key (reachable: a
`validate_action` call with an empty `agent_id` auto-registers it). -/
def emptyIdAgent : Agent :=
  { agent_id := some "", name := some "E", trust_level := some "low",
    status := some "active" }

/-- Store containing only the empty-string agent. -/
def emptyIdStore : Store :=
  { agents := fun k => if k = "" then some emptyIdAgent else none,
    policies := [], audit_log := [], incidents := [] }

/-- The persistent state an outcome of `validate_action` leaves behind,
whether the call returned or raised. -/
def outcomeStore : Except Store (ValidateResult × Store) → Store
  | Except.ok (_, s) => s
  | Except.error s => s

/-- Store with one plain active agent, for the suspension witness. -/
def plainAgentStore : Store :=
  { agents := fun k => if k = "low-agent" then some lowAgent else none,
    policies := [], audit_log := [], incidents := [] }

/-! ## Lemmas about the pattern matcher -/

/-- The glob-to-regex text never starts with a bare `*`: every emitted `*`
immediately follows the `.` emitted with it. -/
theorem globReplace_head_ne_star (cs : List Char) (l : List Char) :
    globReplace cs ≠ '*' :: l := by
  cases cs with
  | nil => simp [globReplace]
  | cons c cs =>
    simp only [globReplace]
    split
    · simp
    · intro h
      rename_i hc
      exact hc (List.head_eq_of_cons_eq h)

/-- On safe characters the built regex always compiles. -/
theorem parseToks_globReplace_safe (cs : List Char)
    (h : ∀ c ∈ cs, safeRegexChar c = true) :
    (parseToks (globReplace cs)).isSome := by
  induction cs with
  | nil => simp [globReplace, parseToks]
  | cons c cs ih =>
    have hc := h c (List.mem_cons_self c cs)
    have ih' := ih (fun d hd => h d (List.mem_cons_of_mem c hd))
    by_cases hstar : c = '*'
    · subst hstar
      simp only [globReplace, if_pos rfl, parseToks]
      simpa using ih'
    · by_cases hdot : c = '.'
      · subst hdot
        simp only [globReplace, if_neg (by decide : ¬ ('.' = '*'))]
        rcases hgr : globReplace cs with _ | ⟨d, rest⟩
        · simp [parseToks]
        · have hd : d ≠ '*' := by
            intro e
            exact globReplace_head_ne_star cs rest (by rw [hgr, e])
          rw [show parseToks ('.' :: d :: rest) =
              (parseToks (d :: rest)).map (fun ts => RTok.dot :: ts) from by
            conv_lhs => rw [parseToks.eq_def]
            simp [hd]]
          rw [hgr] at ih'
          simpa using ih'
      · have hmeta : c ∉ reMetaChars := by
          simp only [safeRegexChar, hstar, hdot] at hc
          simpa using hc
        simp only [globReplace, if_neg hstar]
        rw [show parseToks (c :: globReplace cs) =
            (parseToks (globReplace cs)).map (fun ts => RTok.lit c :: ts) from by
          conv_lhs => rw [parseToks.eq_def]
          simp [hdot, hstar, hmeta]]
        simpa using ih'

/-- On plain glob characters the built regex compiles to exactly the token
list `globToks`. -/
theorem parseToks_globReplace_plain (cs : List Char)
    (h : ∀ c ∈ cs, plainGlobChar c = true) :
    parseToks (globReplace cs) = some (globToks cs) := by
  induction cs with
  | nil => simp [globReplace, parseToks, globToks]
  | cons c cs ih =>
    have hc := h c (List.mem_cons_self c cs)
    have ih' := ih (fun d hd => h d (List.mem_cons_of_mem c hd))
    by_cases hstar : c = '*'
    · subst hstar
      simp only [globReplace, if_pos rfl, parseToks, globToks]
      simp [ih']
    · have hmeta : c ∉ reMetaChars := by
        simp only [plainGlobChar, hstar] at hc
        simpa using hc
      have hdot : c ≠ '.' := by
        intro e; exact hmeta (by rw [e]; decide)
      simp only [globReplace, if_neg hstar]
      rw [show parseToks (c :: globReplace cs) =
          (parseToks (globReplace cs)).map (fun ts => RTok.lit c :: ts) from by
        conv_lhs => rw [parseToks.eq_def]
        simp [hdot, hstar, hmeta]]
      simp [ih', globToks, hstar]

/-- When the continuations agree on newline-free values, the `.*` suffix
scan agrees with the spec's unrestricted suffix scan on newline-free
values. -/
theorem starLoop_spec_aux (t s : List Char → Bool)
    (hts : ∀ ws, (∀ v ∈ ws, v ≠ '\n') → t ws = s ws) :
    ∀ vs, (∀ v ∈ vs, v ≠ '\n') → starLoop t vs = specStarLoop s vs := by
  intro vs
  induction vs with
  | nil =>
    intro _
    simp only [starLoop, specStarLoop]
    exact hts [] (by simp)
  | cons v vs ih =>
    intro h
    have hv : (v != '\n') = true := by
      simpa using h v (List.mem_cons_self v vs)
    simp only [starLoop, specStarLoop, hv, Bool.true_and]
    rw [hts (v :: vs) h, ih (fun w hw => h w (List.mem_cons_of_mem v hw))]

/-- On newline-free values, the compiled glob regex matches exactly as the
spec's glob semantics say. -/
theorem tokMatch_globToks (ps : List Char) :
    ∀ vs, (∀ v ∈ vs, v ≠ '\n') → tokMatch (globToks ps) vs = specGlobMatch ps vs := by
  induction ps with
  | nil => intro vs _; simp [globToks, tokMatch, specGlobMatch]
  | cons c ps ih =>
    intro vs hvs
    by_cases hstar : c = '*'
    · subst hstar
      have e0 : tokMatch (globToks ('*' :: ps)) vs
          = starLoop (tokMatch (globToks ps)) vs := by
        simp [globToks, tokMatch]
      have e2 : specGlobMatch ('*' :: ps) vs = specStarLoop (specGlobMatch ps) vs := by
        rw [specGlobMatch.eq_def]
        simp
      rw [e0, e2]
      exact starLoop_spec_aux _ _ ih vs hvs
    · cases vs with
      | nil =>
        have e1 : tokMatch (globToks (c :: ps)) [] = false := by
          simp [globToks, hstar, tokMatch]
        have e2 : specGlobMatch (c :: ps) [] = false := by
          rw [specGlobMatch.eq_def]
          simp [hstar]
        rw [e1, e2]
      | cons v vs =>
        have hvs' : ∀ w ∈ vs, w ≠ '\n' := fun w hw => hvs w (List.mem_cons_of_mem v hw)
        have e1 : tokMatch (globToks (c :: ps)) (v :: vs)
            = ((c.toLower == v.toLower) && tokMatch (globToks ps) vs) := by
          simp [globToks, hstar, tokMatch]
        have e2 : specGlobMatch (c :: ps) (v :: vs)
            = ((c.toLower == v.toLower) && specGlobMatch ps vs) := by
          rw [specGlobMatch.eq_def]
          simp [hstar]
        rw [e1, e2, ih vs hvs']

/-- On a newline-free value the trailing-newline clause of `$` is dead. -/
theorem reFullMatch_no_newline (ts : List RTok) (vs : List Char)
    (h : ∀ v ∈ vs, v ≠ '\n') : reFullMatch ts vs = tokMatch ts vs := by
  unfold reFullMatch
  rcases hlast : vs.getLast? with _ | c
  · simp
  · have hmem : c ∈ vs.getLast? := by rw [hlast]; rfl
    obtain ⟨hne, hEq⟩ := List.mem_getLast?_eq_getLast hmem
    have hc : c ∈ vs := hEq ▸ List.getLast_mem hne
    have : c ≠ '\n' := h c hc
    simp [this]

/-- The pattern `*` matches every value under the spec's glob semantics. -/
theorem specGlobMatch_star (vs : List Char) : specGlobMatch ['*'] vs = true := by
  induction vs with
  | nil => decide
  | cons v vs ih =>
    have estar : ∀ ws, specGlobMatch ['*'] ws = specStarLoop (specGlobMatch []) ws := by
      intro ws
      rw [specGlobMatch.eq_def]
      simp
    rw [estar (v :: vs)]
    simp only [specStarLoop]
    rw [← estar vs, ih]
    simp

/-! ## Claims C5 and C6 — the pattern matcher -/

/-- C5, counterexample.  The claim says the matcher returns a boolean for
every pattern and value without raising, and that a malformed pattern still
fails gracefully on values it does not literally equal.  At pattern `"("`
and value `"("` the source instead raises `re.error` (the built regex
`"^($"` has an unterminated group), returning no boolean at all — even
though the value is literally equal to the pattern. -/
theorem match_pattern_raises_cex : match_pattern "(" "(" = none := by decide

/-- C5, amended.  For every pattern whose characters are ordinary text or
the wildcard `*` (or `.`), `_match_pattern` returns a boolean for every
value; a pattern containing another regex metacharacter can instead raise
`re.error` out of the call. -/
theorem match_pattern_total_on_safe (pattern value : String)
    (hp : ∀ c ∈ pattern.toList, safeRegexChar c = true) :
    ∃ b, match_pattern pattern value = some b := by
  unfold match_pattern
  by_cases h : pattern = "*"
  · exact ⟨true, by simp [h]⟩
  · rw [if_neg h]
    rcases hps : parseToks (globReplace pattern.toList) with _ | ts
    · have hsome := parseToks_globReplace_safe pattern.toList hp
      rw [hps] at hsome
      simp at hsome
    · exact ⟨_, rfl⟩

/-- C5, witness: the amended theorem applied to the safe pattern `read_*`. -/
theorem match_pattern_total_on_safe_witness :
    (∀ c ∈ "read_*".toList, safeRegexChar c = true) ∧
    ∃ b, match_pattern "read_*" "read_data" = some b :=
  ⟨by decide, match_pattern_total_on_safe "read_*" "read_data" (by decide)⟩

/-- C6, counterexample.  The claim says that for patterns other than `*`
every non-`*` character is matched literally, `*` expands to zero or more
arbitrary characters, and the match is anchored at both ends.  Three
divergences of the source from that reading: a `.` in the pattern matches
any character (`a.c` vs `axc`); a value with a single trailing newline
matches a pattern with no trailing newline (`a` vs `"a\n"`, the regex `$`
quirk), violating anchoring; and the expansion of `*` refuses newlines
(`a*b` vs `"a\nb"`), so it is not "zero or more arbitrary characters". -/
theorem match_pattern_glob_cex :
    (match_pattern "a.c" "axc" = some true ∧
      specGlobMatch "a.c".toList "axc".toList = false) ∧
    (match_pattern "a" "a\n" = some true ∧
      specGlobMatch "a".toList "a\n".toList = false) ∧
    (match_pattern "a*b" "a\nb" = some false ∧
      specGlobMatch "a*b".toList "a\nb".toList = true) :=
  ⟨⟨by decide, by decide⟩, ⟨by decide, by decide⟩, ⟨by decide, by decide⟩⟩

/-- C6, amended.  For every pattern whose characters are ordinary text or
the wildcard `*` (no regex metacharacter, in particular no `.`), and every
newline-free value, `_match_pattern` returns exactly the spec's glob
semantics: `*` expands to zero or more characters, all other characters
match literally, comparison is case-insensitive and anchored at both ends;
the pattern `*` matches everything. -/
theorem match_pattern_glob_equiv (pattern value : String)
    (hp : ∀ c ∈ pattern.toList, plainGlobChar c = true)
    (hv : ∀ v ∈ value.toList, v ≠ '\n') :
    match_pattern pattern value = some (specGlobMatch pattern.toList value.toList) := by
  unfold match_pattern
  by_cases h : pattern = "*"
  · subst h
    rw [if_pos rfl, show ("*" : String).toList = ['*'] by decide,
      specGlobMatch_star]
  · rw [if_neg h, parseToks_globReplace_plain pattern.toList hp]
    simp only [Option.some.injEq]
    rw [reFullMatch_no_newline _ _ hv, tokMatch_globToks pattern.toList value.toList hv]

/-- C6, witness: the amended equivalence applied to `delete_*` against
`DELETE_records` (a case-insensitive wildcard match). -/
theorem match_pattern_glob_equiv_witness :
    (∀ c ∈ "delete_*".toList, plainGlobChar c = true) ∧
    (∀ v ∈ "DELETE_records".toList, v ≠ '\n') ∧
    match_pattern "delete_*" "DELETE_records"
      = some (specGlobMatch "delete_*".toList "DELETE_records".toList) :=
  ⟨by decide, by decide,
   match_pattern_glob_equiv "delete_*" "DELETE_records" (by decide) (by decide)⟩

/-! ## Claim C1 — suspension takes absolute precedence -/

/-- C1.  For every agent whose stored record has status `suspended`,
`validate_action` returns `allowed = false` with a reason naming the agent
(and no `require_approval` key at all), for every policy collection and
whatever the agent's tool lists say: neither the agent-level lists nor any
policy rule is consulted — the result is the same for arbitrary `policies`
and arbitrary `allowed_tools` / `denied_tools` content of the record, and
the call never raises even when a policy carries a malformed pattern. -/
theorem validate_action_suspended_denies
    (action_type target agent_id parameters context : String)
    (action_id entry_id incident_id timestamp : String)
    (store : Store) (a : Agent)
    (ha : store.agents agent_id = some a) (hs : a.status = some "suspended") :
    ∃ s', validate_action action_type target agent_id parameters context
        action_id entry_id incident_id timestamp store =
      Except.ok ({ action_id := action_id, allowed := false, require_approval := none,
                   reason := "Agent \x27" ++ agent_id ++ "\x27 is suspended",
                   warnings := [] }, s') := by
  unfold validate_action
  simp only [ha, Option.isNone_some, Bool.false_eq_true, if_false, Option.getD_some, hs,
    if_pos rfl]
  exact ⟨_, rfl⟩

/-- C1, witness: a suspended agent in a store whose only policy would raise
on any rule evaluation, showing no rule is consulted. -/
theorem validate_action_suspended_denies_witness :
    suspStore.agents "s-agent" = some suspAgent ∧
    suspAgent.status = some "suspended" ∧
    ∃ s', validate_action "tool_call" "read_data" "s-agent" "" "ctx"
        "act-1" "aud-1" "inc-1" "t-1" suspStore =
      Except.ok ({ action_id := "act-1", allowed := false, require_approval := none,
                   reason := "Agent \x27s-agent\x27 is suspended",
                   warnings := [] }, s') :=
  ⟨rfl, rfl,
   validate_action_suspended_denies "tool_call" "read_data" "s-agent" "" "ctx"
     "act-1" "aud-1" "inc-1" "t-1" suspStore suspAgent rfl rfl⟩

/-! ## Claim C2 — agent-level deny list precedence -/

/-- When the denied-tools scan finds a match (without first raising on a
malformed pattern), `_evaluate_policies` denies with the explicit-denial
reason, whatever the allow list and the policies contain. -/
theorem evaluate_policies_denied_tools
    (action_type target agent_id parameters : String)
    (agents : AgentsMap) (policies : List Policy) (a : Agent) (dts : List String)
    (ha : agents agent_id = some a) (hdts : a.denied_tools = some dts)
    (hmatch : anyPatternMatches dts target = Except.ok true) :
    evaluate_policies action_type target agent_id parameters agents policies =
      Except.ok { allowed := false,
                  reason := "Tool \x27" ++ target ++
                    "\x27 is explicitly denied for agent \x27" ++ agent_id ++ "\x27",
                  policy_matched := "agent_denied_tools" } := by
  have hne : dts ≠ [] := by
    intro e
    rw [e] at hmatch
    simp [anyPatternMatches] at hmatch
  unfold evaluate_policies
  simp only [ha, Option.getD_some, hdts]
  rw [if_pos hne, hmatch]

/-- C2, amended.  For every non-suspended stored agent whose `denied_tools`
scan reaches a matching pattern (the claim's "target matches at least one
denied pattern", provided no malformed pattern earlier in the list makes the
scan raise first), `validate_action` denies with the explicit-denial
reason, independently of the agent's `allowed_tools` and of every policy in
the store — the deny list is consulted before the allow list and before any
policy rule. -/
theorem denied_tools_precedence
    (action_type target agent_id parameters context : String)
    (action_id entry_id incident_id timestamp : String)
    (store : Store) (a : Agent) (dts : List String)
    (ha : store.agents agent_id = some a)
    (hsusp : a.status ≠ some "suspended")
    (hdts : a.denied_tools = some dts)
    (hmatch : anyPatternMatches dts target = Except.ok true) :
    ∃ s', validate_action action_type target agent_id parameters context
        action_id entry_id incident_id timestamp store =
      Except.ok ({ action_id := action_id, allowed := false, require_approval := some false,
                   reason := "Tool \x27" ++ target ++
                     "\x27 is explicitly denied for agent \x27" ++ agent_id ++ "\x27",
                   warnings := [] }, s') := by
  unfold validate_action
  simp only [ha, Option.isNone_some, Bool.false_eq_true, if_false, Option.getD_some]
  rw [if_neg hsusp,
    evaluate_policies_denied_tools action_type target agent_id parameters
      store.agents store.policies a dts ha hdts hmatch]
  exact ⟨_, rfl⟩

/-- C2, counterexample.  The claim promises a deny decision whenever some
`denied_tools` pattern matches the target.  Store: agent `d-agent` with
`denied_tools = ["(", "*"]`; target `x` matches the denied pattern `*`, yet
the call raises `re.error` while scanning the malformed `"("` first, so no
decision is returned at all (and nothing is persisted). -/
theorem denied_tools_raise_cex :
    match_pattern "*" "x" = some true ∧
    validate_action "tool_call" "x" "d-agent" "" "" "act-2" "aud-2" "inc-2" "t-2"
      deniedRaiseStore = Except.error deniedRaiseStore :=
  ⟨by decide, rfl⟩

/-- C2, witness: agent `db-agent` has `allowed_tools = ["*"]`, the store
holds an allow-everything policy, and yet `db_drop`, matched by the denied
pattern `db_*`, is denied. -/
theorem denied_tools_precedence_witness :
    denyListStore.agents "db-agent" = some denyListAgent ∧
    denyListAgent.status ≠ some "suspended" ∧
    denyListAgent.denied_tools = some ["db_*"] ∧
    anyPatternMatches ["db_*"] "db_drop" = Except.ok true ∧
    ∃ s', validate_action "tool_call" "db_drop" "db-agent" "" "" "act-3" "aud-3" "inc-3" "t-3"
        denyListStore =
      Except.ok ({ action_id := "act-3", allowed := false, require_approval := some false,
                   reason := "Tool \x27db_drop\x27 is explicitly denied for agent \x27db-agent\x27",
                   warnings := [] }, s') :=
  ⟨rfl, by decide, rfl, rfl,
   denied_tools_precedence "tool_call" "db_drop" "db-agent" "" "" "act-3" "aud-3" "inc-3" "t-3"
     denyListStore denyListAgent ["db_*"] rfl (by decide) rfl rfl⟩

/-! ## Claims C3 and C4 — the trust clauses -/

/-- C3.  A rule whose condition is exactly `trust_level_below lvl` (a named
level) triggers exactly when the agent's trust score — via the fixed map
low:1, medium:2, high:3, admin:4, with unknown strings scoring 1 — is
strictly below the named level's score: a `deny` rule then denies with the
rule's message, a `require_approval` rule returns `require_approval = true`
with the rule's message, and an `allow` rule (or any other action string)
is a no-op, so evaluation falls through to the default allow.  In
particular an admin agent against `trust_level_below "admin"` (4 < 4 fails)
is not triggered and the action is allowed by default. -/
theorem trust_level_below_semantics
    (action_type target agent_id parameters pid msg act lvl tl : String)
    (hlvl : lvl ∈ ["low", "medium", "high", "admin"]) :
    evaluate_policies action_type target agent_id parameters
      (fun k => if k = agent_id then
          some { agent_id := some agent_id, trust_level := some tl } else none)
      [{ id := some pid, enabled := some true,
         rules := some [{ condition := some { trust_level_below := some lvl },
                          action := some act, message := some msg }] }] =
      Except.ok
        (if trustScore tl < trustScore lvl then
           (if act = "deny" then
              { allowed := false, reason := msg, policy_matched := pid }
            else if act = "require_approval" then
              { allowed := false, require_approval := true, reason := msg,
                policy_matched := pid }
            else { allowed := true, reason := "Action permitted by default policy",
                   policy_matched := "default_allow" })
         else { allowed := true, reason := "Action permitted by default policy",
                policy_matched := "default_allow" }) := by
  have hne : lvl ≠ "" := by fin_cases hlvl <;> decide
  simp only [evaluate_policies, evalPolicies, evalRules, evalRule, evalRuleTrust,
    evalRuleBelow, skipByMismatch, anyPatternMatches, Option.getD_some, Option.getD_none,
    if_pos rfl]
  simp only [Option.getD_none, Option.getD_some, ne_eq, not_true_eq_false, if_false,
    ite_self, eq_self_iff_true, if_true]
  by_cases hlt : trustScore tl < trustScore lvl
  · simp only [hne, hlt, if_pos, if_true, not_false_iff]
    by_cases hd : act = "deny"
    · simp [hd]
    · by_cases hr : act = "require_approval"
      · simp [hd, hr]
      · simp [hd, hr]
  · simp [hne, hlt]

/-- C3, witness: a low-trust agent against `trust_level_below "admin"` with
a `deny` rule is denied with the rule's message; an admin agent against the
same policy is allowed by default. -/
theorem trust_level_below_semantics_witness :
    (evaluate_policies "tool_call" "delete_records" "low-u" ""
      (fun k => if k = "low-u" then
          some { agent_id := some "low-u", trust_level := some "low" } else none)
      [{ id := some "pol-b", enabled := some true,
         rules := some [{ condition := some { trust_level_below := some "admin" },
                          action := some "deny", message := some "Delete requires admin" }] }] =
      Except.ok { allowed := false, reason := "Delete requires admin",
                  policy_matched := "pol-b" }) ∧
    (evaluate_policies "tool_call" "delete_records" "adm-u" ""
      (fun k => if k = "adm-u" then
          some { agent_id := some "adm-u", trust_level := some "admin" } else none)
      [{ id := some "pol-b", enabled := some true,
         rules := some [{ condition := some { trust_level_below := some "admin" },
                          action := some "deny", message := some "Delete requires admin" }] }] =
      Except.ok { allowed := true, reason := "Action permitted by default policy",
                  policy_matched := "default_allow" }) := by
  constructor
  · rw [trust_level_below_semantics "tool_call" "delete_records" "low-u" "" "pol-b"
      "Delete requires admin" "deny" "admin" "low" (by decide)]
    rfl
  · rw [trust_level_below_semantics "tool_call" "delete_records" "adm-u" "" "pol-b"
      "Delete requires admin" "deny" "admin" "admin" (by decide)]
    rfl

/-- C4.  A rule whose condition is exactly `trust_level_at_least lvl` (a
named level) produces a decision exactly when the agent's score is below
the required score and the rule's action is `deny` — the decision is then a
denial whose reason states the required versus actual trust level.  A rule
with action `allow` or `require_approval` is never triggered by this
clause, and an agent meeting the threshold is never allowed by this clause
either: in every non-deny case evaluation falls through to the default
allow (matched policy is the `default_allow` sentinel, not this rule's
policy). -/
theorem trust_level_at_least_semantics
    (action_type target agent_id parameters pid msg act lvl tl : String)
    (hlvl : lvl ∈ ["low", "medium", "high", "admin"]) :
    evaluate_policies action_type target agent_id parameters
      (fun k => if k = agent_id then
          some { agent_id := some agent_id, trust_level := some tl } else none)
      [{ id := some pid, enabled := some true,
         rules := some [{ condition := some { trust_level_at_least := some lvl },
                          action := some act, message := some msg }] }] =
      Except.ok
        (if trustScore tl < trustScore lvl ∧ act = "deny" then
           { allowed := false,
             reason := "Tool \x27" ++ target ++ "\x27 requires trust level \x27" ++
               lvl ++ "\x27, agent has \x27" ++ tl ++ "\x27",
             policy_matched := pid }
         else { allowed := true, reason := "Action permitted by default policy",
                policy_matched := "default_allow" }) := by
  have hne : lvl ≠ "" := by fin_cases hlvl <;> decide
  simp only [evaluate_policies, evalPolicies, evalRules, evalRule, evalRuleTrust,
    evalRuleBelow, skipByMismatch, anyPatternMatches, Option.getD_some, Option.getD_none,
    if_pos rfl]
  simp only [Option.getD_none, Option.getD_some, ne_eq, not_true_eq_false, if_false,
    ite_self, eq_self_iff_true, if_true]
  by_cases hcond : trustScore tl < trustScore lvl ∧ act = "deny"
  · simp [hne, hcond]
  · simp [hne, hcond]

/-- C4, witness: a low-trust agent against `trust_level_at_least "high"`
with a `require_approval` rule is not triggered (default allow), while the
same condition with a `deny` rule denies stating the required level; a
high-trust agent against the `deny` rule is also allowed only by
default. -/
theorem trust_level_at_least_semantics_witness :
    (evaluate_policies "tool_call" "deploy" "low-u" ""
      (fun k => if k = "low-u" then
          some { agent_id := some "low-u", trust_level := some "low" } else none)
      [{ id := some "pol-a", enabled := some true,
         rules := some [{ condition := some { trust_level_at_least := some "high" },
                          action := some "require_approval", message := some "m" }] }] =
      Except.ok { allowed := true, reason := "Action permitted by default policy",
                  policy_matched := "default_allow" }) ∧
    (evaluate_policies "tool_call" "deploy" "low-u" ""
      (fun k => if k = "low-u" then
          some { agent_id := some "low-u", trust_level := some "low" } else none)
      [{ id := some "pol-a", enabled := some true,
         rules := some [{ condition := some { trust_level_at_least := some "high" },
                          action := some "deny", message := some "m" }] }] =
      Except.ok { allowed := false,
                  reason := "Tool \x27deploy\x27 requires trust level \x27high\x27, agent has \x27low\x27",
                  policy_matched := "pol-a" }) ∧
    (evaluate_policies "tool_call" "deploy" "high-u" ""
      (fun k => if k = "high-u" then
          some { agent_id := some "high-u", trust_level := some "high" } else none)
      [{ id := some "pol-a", enabled := some true,
         rules := some [{ condition := some { trust_level_at_least := some "high" },
                          action := some "deny", message := some "m" }] }] =
      Except.ok { allowed := true, reason := "Action permitted by default policy",
                  policy_matched := "default_allow" }) := by
  refine ⟨?_, ?_, ?_⟩
  · rw [trust_level_at_least_semantics "tool_call" "deploy" "low-u" "" "pol-a" "m"
      "require_approval" "high" "low" (by decide)]
    rfl
  · rw [trust_level_at_least_semantics "tool_call" "deploy" "low-u" "" "pol-a" "m"
      "deny" "high" "low" (by decide)]
    rfl
  · rw [trust_level_at_least_semantics "tool_call" "deploy" "high-u" "" "pol-a" "m"
      "deny" "high" "high" (by decide)]
    rfl

/-! ## Claim C7 — invalid policies are rejected without mutation -/

/-- If some rule in the list has an empty condition or an invalid action,
the validation scan fails, whatever index it starts from. -/
theorem validate_rules_from_bad (rules : List Rule)
    (h : ∃ r ∈ rules, (r.condition.getD {}).isEmptyDict = true ∨
      valid_actions.contains (r.action.getD "deny") = false) :
    ∀ i, (validate_rules_from i rules).1 = false := by
  induction rules with
  | nil =>
    rcases h with ⟨r, hr, _⟩
    cases hr
  | cons r rs ih =>
    intro i
    rcases h with ⟨q, hq, hbadq⟩
    unfold validate_rules_from
    by_cases hc : (r.condition.getD {}).isEmptyDict = true
    · simp [hc]
    · have hc' : (r.condition.getD {}).isEmptyDict = false := by
        exact Bool.eq_false_iff.mpr hc
      by_cases hact : valid_actions.contains (r.action.getD "deny") = true
      · simp only [hc', hact, Bool.false_eq_true, if_false, Bool.not_true, if_true]
        rcases List.mem_cons.mp hq with rfl | hmem
        · exfalso
          rcases hbadq with h1 | h1
          · exact hc h1
          · rw [hact] at h1
            cases h1
        · exact ih ⟨q, hmem, hbadq⟩ (i + 1)
      · have hact' : ¬(r.action.getD "deny" ∈ valid_actions) := by
          simpa using Bool.eq_false_iff.mpr hact
        simp [hc', hact']

/-- An empty rule list or a bad rule makes `_validate_policy_rules` fail. -/
theorem validate_policy_rules_bad (rules : List Rule)
    (h : rules = [] ∨ ∃ r ∈ rules, (r.condition.getD {}).isEmptyDict = true ∨
      valid_actions.contains (r.action.getD "deny") = false) :
    (validate_policy_rules rules).1 = false := by
  unfold validate_policy_rules
  rcases h with rfl | h
  · rfl
  · split
    · rfl
    · exact validate_rules_from_bad rules h 0

/-- C7.  `create_policy` called with an invalid rule set — an empty rule
list, a rule whose condition dict is empty, or a rule whose action is not
one of allow/deny/require_approval — returns `success = false` and leaves
the whole store exactly as it was: the policy collection (any existing
policy under the same id included), the agents, the audit log and the
incident log are all unchanged. -/
theorem create_policy_invalid_rules_no_mutation
    (policy_id name description : String) (rules_list : List Rule)
    (priority : Int) (enabled : Bool) (timestamp entry_id : String) (store : Store)
    (hbad : rules_list = [] ∨ ∃ r ∈ rules_list,
      (r.condition.getD {}).isEmptyDict = true ∨
        valid_actions.contains (r.action.getD "deny") = false) :
    (create_policy policy_id name description rules_list priority enabled
        timestamp entry_id store).1.success = false ∧
    (create_policy policy_id name description rules_list priority enabled
        timestamp entry_id store).2 = store := by
  have hv := validate_policy_rules_bad rules_list hbad
  unfold create_policy
  simp [hv]

/-- C7, witness: upserting under the id of the stored policy `allow-all`
with an empty rule list fails and leaves the store untouched. -/
theorem create_policy_invalid_rules_no_mutation_witness :
    (create_policy "allow-all" "N" "D" [] 100 true "t-7" "aud-7"
        denyListStore).1.success = false ∧
    (create_policy "allow-all" "N" "D" [] 100 true "t-7" "aud-7"
        denyListStore).2 = denyListStore :=
  create_policy_invalid_rules_no_mutation "allow-all" "N" "D" [] 100 true "t-7" "aud-7"
    denyListStore (Or.inl rfl)

/-! ## Claim C8 — auto-registration of unknown agents -/

/-- C8, counterexample.  The claim says the persisted record of an
auto-registered agent has `status = "active"`.  On an empty store, the
record persisted by the first `validate_action` call for `agent-x` carries
trust level `low` and `auto_registered = true` but no `status` key at all —
its status is not the string `active` (a read returns `None`, not
`"active"`; only explicit registration writes `status = "active"`). -/
theorem auto_register_status_cex :
    (validate_action "tool_call" "read_data" "agent-x" "" "" "act-8" "aud-8" "inc-8" "t-8"
        emptyStore).map
      (fun rs => (rs.2.agents "agent-x").map
        (fun a => (a.trust_level, a.auto_registered, a.status))) =
    Except.ok (some (some "low", some true, none)) := by rfl

/-- C8, amended.  For every agent id absent from the store, the first
`validate_action` call persists — before evaluation, hence also when a
malformed policy pattern later makes the call raise — the auto-registration
record with trust level `low`, `auto_registered = true` and no status field
(the agent is treated as active: only an explicit `suspended` status would
deny); and when the call returns, its decision is exactly the normal
evaluation of the action for that fresh low-trust agent against the stored
policies. -/
theorem auto_register_low_trust
    (action_type target agent_id parameters context : String)
    (action_id entry_id incident_id timestamp : String)
    (store : Store)
    (h : store.agents agent_id = none) :
    (outcomeStore (validate_action action_type target agent_id parameters context
        action_id entry_id incident_id timestamp store)).agents agent_id =
      some (auto_register_record agent_id timestamp) ∧
    (validate_action action_type target agent_id parameters context
        action_id entry_id incident_id timestamp store).toOption.map
        (fun rs => (rs.1.allowed, rs.1.require_approval, rs.1.reason)) =
      (evaluate_policies action_type target agent_id parameters
          (fun k => if k = agent_id then some (auto_register_record agent_id timestamp)
                    else store.agents k)
          store.policies).toOption.map
        (fun ev => (ev.allowed, some ev.require_approval, ev.reason)) := by
  unfold validate_action
  simp only [h, Option.isNone_none, if_true, eq_self_iff_true, Option.getD_some]
  split
  · rename_i hfalse
    rw [show (auto_register_record agent_id timestamp).status = none from rfl] at hfalse
    cases hfalse
  · rcases heval : evaluate_policies action_type target agent_id parameters
        (fun k => if k = agent_id then some (auto_register_record agent_id timestamp)
                  else store.agents k) store.policies with e | ev
    · exact ⟨by simp [outcomeStore], by simp [Except.toOption]⟩
    · constructor
      · simp only [outcomeStore]
        rw [show ∀ res s, (validate_finish action_type target agent_id parameters context
            action_id entry_id incident_id timestamp res s).agents = s.agents from
          fun res s => by unfold validate_finish; split <;> rfl]
        simp
      · simp [Except.toOption]

/-- C8, witness: the amended theorem applied to an empty store. -/
theorem auto_register_low_trust_witness :
    emptyStore.agents "agent-w" = none ∧
    ((outcomeStore (validate_action "tool_call" "read_data" "agent-w" "" "" "act-9"
        "aud-9" "inc-9" "t-9" emptyStore)).agents "agent-w" =
      some (auto_register_record "agent-w" "t-9") ∧
    (validate_action "tool_call" "read_data" "agent-w" "" "" "act-9" "aud-9" "inc-9" "t-9"
        emptyStore).toOption.map
        (fun rs => (rs.1.allowed, rs.1.require_approval, rs.1.reason)) =
      (evaluate_policies "tool_call" "read_data" "agent-w" ""
          (fun k => if k = "agent-w" then some (auto_register_record "agent-w" "t-9")
                    else emptyStore.agents k)
          emptyStore.policies).toOption.map
        (fun ev => (ev.allowed, some ev.require_approval, ev.reason))) :=
  ⟨rfl, auto_register_low_trust "tool_call" "read_data" "agent-w" "" "" "act-9" "aud-9"
    "inc-9" "t-9" emptyStore rfl⟩

/-! ## Claim C9 — critical incidents auto-suspend the agent -/

/-- C9, counterexample.  The claim promises suspension for every agent id
present in the store when a critical incident names it.  The empty-string
id can be present in the store (a `validate_action` call with an empty
`agent_id` auto-registers it), yet `report_incident` guards the suspension
with Python truthiness (`if severity == "critical" and agent_id:`), so the
stored empty-id agent is left untouched and the response says
`agent_suspended = false`. -/
theorem report_incident_empty_id_cex :
    emptyIdStore.agents "" = some emptyIdAgent ∧
    (report_incident "other" "critical" "d" "" "" "" "inc-9" "aud-9" "t-9"
        emptyIdStore).1.agent_suspended = false ∧
    (report_incident "other" "critical" "d" "" "" "" "inc-9" "aud-9" "t-9"
        emptyIdStore).2.agents "" = some emptyIdAgent :=
  ⟨rfl, rfl, rfl⟩

/-- C9, amended.  For a non-empty agent id present in the agent store,
`report_incident` with severity `critical` sets that agent's status to
`suspended`, records the suspension reason and the timestamp, changes no
other field of that agent and no other agent's record, and returns
`agent_suspended = true`; for an agent id absent from the store, or any
non-critical severity, no agent record is modified and
`agent_suspended = false`. -/
theorem report_incident_critical_suspension
    (incident_type severity description agent_id evidence recommended_action : String)
    (incident_id entry_id timestamp : String) (store : Store) :
    (∀ a, severity = "critical" → agent_id ≠ "" → store.agents agent_id = some a →
      (report_incident incident_type severity description agent_id evidence
          recommended_action incident_id entry_id timestamp store).1.agent_suspended = true ∧
      (report_incident incident_type severity description agent_id evidence
          recommended_action incident_id entry_id timestamp store).2.agents agent_id =
        some { a with
               status := some "suspended",
               suspended_at := some timestamp,
               suspension_reason :=
                 some ("Auto-suspended due to critical incident: " ++ incident_id) } ∧
      (∀ k, k ≠ agent_id →
        (report_incident incident_type severity description agent_id evidence
            recommended_action incident_id entry_id timestamp store).2.agents k =
          store.agents k)) ∧
    ((store.agents agent_id = none ∨ severity ≠ "critical") →
      (report_incident incident_type severity description agent_id evidence
          recommended_action incident_id entry_id timestamp store).1.agent_suspended = false ∧
      (report_incident incident_type severity description agent_id evidence
          recommended_action incident_id entry_id timestamp store).2.agents =
        store.agents) := by
  have p1 : (report_incident incident_type severity description agent_id evidence
      recommended_action incident_id entry_id timestamp store).1.agent_suspended =
      (suspendOnCritical (coercedSeverity severity) agent_id incident_id timestamp
        store.agents).1 := rfl
  have p2 : (report_incident incident_type severity description agent_id evidence
      recommended_action incident_id entry_id timestamp store).2.agents =
      (suspendOnCritical (coercedSeverity severity) agent_id incident_id timestamp
        store.agents).2 := rfl
  constructor
  · intro a hsev hne ha
    subst hsev
    have hco : coercedSeverity "critical" = "critical" := rfl
    rw [p1, p2, hco]
    unfold suspendOnCritical
    rw [if_pos (⟨rfl, hne⟩ : "critical" = "critical" ∧ agent_id ≠ ""), ha]
    refine ⟨rfl, by simp, ?_⟩
    intro k hk
    simp [hk]
  · intro h
    rw [p1, p2]
    unfold suspendOnCritical
    rcases h with hnone | hsev
    · split
      · rw [hnone]
        exact ⟨rfl, rfl⟩
      · exact ⟨rfl, rfl⟩
    · have hco : coercedSeverity severity ≠ "critical" := by
        unfold coercedSeverity
        split
        · exact hsev
        · decide
      rw [if_neg (fun hc => hco hc.1)]
      exact ⟨rfl, rfl⟩

/-- C9, witness: a critical incident naming the stored agent `low-agent`
suspends exactly that agent with the recorded reason and timestamp, while a
`high`-severity incident naming the same agent suspends nobody. -/
theorem report_incident_critical_suspension_witness :
    ((report_incident "unauthorized_access" "critical" "d" "low-agent" "" ""
        "inc-10" "aud-10" "t-10" plainAgentStore).1.agent_suspended = true) ∧
    ((report_incident "unauthorized_access" "critical" "d" "low-agent" "" ""
        "inc-10" "aud-10" "t-10" plainAgentStore).2.agents "low-agent" =
      some { lowAgent with
             status := some "suspended",
             suspended_at := some "t-10",
             suspension_reason :=
               some "Auto-suspended due to critical incident: inc-10" }) ∧
    ((report_incident "unauthorized_access" "high" "d" "low-agent" "" ""
        "inc-11" "aud-11" "t-11" plainAgentStore).1.agent_suspended = false) := by
  obtain ⟨ha1, ha2, _⟩ :=
    (report_incident_critical_suspension "unauthorized_access" "critical" "d" "low-agent"
      "" "" "inc-10" "aud-10" "t-10" plainAgentStore).1 lowAgent rfl (by decide) rfl
  obtain ⟨hb1, _⟩ :=
    (report_incident_critical_suspension "unauthorized_access" "high" "d" "low-agent"
      "" "" "inc-11" "aud-11" "t-11" plainAgentStore).2 (Or.inr (by decide))
  exact ⟨ha1, by rw [ha2]; rfl, hb1⟩

/-! ## Claim C10 — require_approval decisions are denials and log incidents -/

/-- Every decisive result of the trust-below clause has `allowed = false`. -/
theorem evalRuleBelow_allowed_false (policy : Policy) (rule : Rule) (tl : String)
    (s : Nat) (res : EvalResult)
    (h : evalRuleBelow policy rule tl s = some res) : res.allowed = false := by
  unfold evalRuleBelow at h
  dsimp only at h
  split at h
  · split at h
    · split at h
      · injection h with h2
        subst h2
        rfl
      · split at h
        · injection h with h2
          subst h2
          rfl
        · exact Option.noConfusion h
    · exact Option.noConfusion h
  · exact Option.noConfusion h

/-- Every decisive result of the trust clauses has `allowed = false`. -/
theorem evalRuleTrust_allowed_false (policy : Policy) (rule : Rule)
    (target tl : String) (s : Nat) (res : EvalResult)
    (h : evalRuleTrust policy rule target tl s = some res) : res.allowed = false := by
  unfold evalRuleTrust at h
  dsimp only at h
  split at h
  · injection h with h2
    subst h2
    rfl
  · exact evalRuleBelow_allowed_false policy rule tl s res h

/-- Every decisive result of one rule has `allowed = false`. -/
theorem evalRule_allowed_false (policy : Policy) (rule : Rule)
    (action_type target tl : String) (s : Nat) (res : EvalResult)
    (h : evalRule policy rule action_type target tl s = Except.ok (some res)) :
    res.allowed = false := by
  unfold evalRule at h
  dsimp only at h
  split at h
  · exact Except.noConfusion h
  · split at h
    · injection h with h2
      exact Option.noConfusion h2
    · split at h
      · exact Except.noConfusion h
      · split at h
        · injection h with h2
          exact Option.noConfusion h2
        · injection h with h2
          exact evalRuleTrust_allowed_false policy rule target tl s res h2

/-- Every decisive result of the rule loop has `allowed = false`. -/
theorem evalRules_allowed_false (policy : Policy) (rules : List Rule)
    (action_type target tl : String) (s : Nat) (res : EvalResult)
    (h : evalRules policy rules action_type target tl s = Except.ok (some res)) :
    res.allowed = false := by
  induction rules with
  | nil => exact Option.noConfusion (Except.ok.inj h)
  | cons r rs ih =>
    unfold evalRules at h
    split at h
    · exact Except.noConfusion h
    · rename_i heq
      injection h with h2
      injection h2 with h3
      subst h3
      exact evalRule_allowed_false policy r action_type target tl s _ heq
    · exact ih h

/-- Every decisive result of the policy loop has `allowed = false`. -/
theorem evalPolicies_allowed_false (policies : List Policy)
    (action_type target tl : String) (s : Nat) (res : EvalResult)
    (h : evalPolicies policies action_type target tl s = Except.ok (some res)) :
    res.allowed = false := by
  induction policies with
  | nil => exact Option.noConfusion (Except.ok.inj h)
  | cons p ps ih =>
    unfold evalPolicies at h
    split at h
    · split at h
      · exact Except.noConfusion h
      · rename_i heq
        injection h with h2
        injection h2 with h3
        subst h3
        exact evalRules_allowed_false p (p.rules.getD []) action_type target tl s _ heq
      · exact ih h
    · exact ih h

/-- A result of `_evaluate_policies` with `require_approval = true` always
has `allowed = false`: the only construction site of `require_approval`
also sets `allowed = false`, and every other decisive result is a plain
denial. -/
theorem evaluate_policies_require_approval
    (action_type target agent_id parameters : String)
    (agents : AgentsMap) (policies : List Policy) (ev : EvalResult)
    (h : evaluate_policies action_type target agent_id parameters agents policies =
      Except.ok ev)
    (hra : ev.require_approval = true) : ev.allowed = false := by
  unfold evaluate_policies at h
  dsimp only at h
  split at h
  · exact Except.noConfusion h
  · rename_i heq
    injection h with h2
    subst h2
    split at heq
    · split at heq
      · exact Except.noConfusion heq
      · injection heq with h3
        injection h3 with h4
        subst h4
        rfl
      · exact Option.noConfusion (Except.ok.inj heq)
    · exact Option.noConfusion (Except.ok.inj heq)
  · split at h
    · exact Except.noConfusion h
    · rename_i heq
      injection h with h2
      subst h2
      split at heq
      · split at heq
        · exact Except.noConfusion heq
        · exact Option.noConfusion (Except.ok.inj heq)
        · injection heq with h3
          injection h3 with h4
          subst h4
          rfl
      · exact Option.noConfusion (Except.ok.inj heq)
    · split at h
      · exact Except.noConfusion h
      · rename_i heq
        injection h with h2
        subst h2
        exact evalPolicies_allowed_false policies action_type target _ _ _ heq
      · injection h with h2
        subst h2
        cases hra

/-- C10.  Whenever the policy evaluation for a stored, non-suspended agent
produces a decision with `require_approval = true` (the only way this
happens is a triggered `require_approval` rule), `validate_action` returns
both `require_approval = true` and `allowed = false`, and consequently —
exactly as for a deny decision — appends a `policy_violation` incident of
severity `medium` carrying the same `action_id`, alongside the audit
entry. -/
theorem require_approval_denies_and_logs
    (action_type target agent_id parameters context : String)
    (action_id entry_id incident_id timestamp : String)
    (store : Store) (a : Agent) (ev : EvalResult)
    (ha : store.agents agent_id = some a)
    (hsusp : a.status ≠ some "suspended")
    (heval : evaluate_policies action_type target agent_id parameters store.agents
        store.policies = Except.ok ev)
    (hra : ev.require_approval = true) :
    validate_action action_type target agent_id parameters context
        action_id entry_id incident_id timestamp store =
      Except.ok ({ action_id := action_id, allowed := false,
                   require_approval := some true, reason := ev.reason, warnings := [] },
        { agents := store.agents,
          policies := store.policies,
          audit_log := append_to_json_list store.audit_log
            { entry_id := entry_id, action_id := some action_id, timestamp := timestamp,
              agent_id := agent_id,
              action := { type := action_type, target := target,
                          parameters := AuditParams.validation parameters,
                          context := some context },
              evaluation := { allowed := false, require_approval := some true,
                              reason := ev.reason } } 1000,
          incidents := append_to_json_list store.incidents
            { incident_id := incident_id, timestamp := timestamp,
              type := "policy_violation", severity := "medium",
              agent_id := some agent_id, action_id := some action_id,
              details := some ("Agent \x27" ++ agent_id ++ "\x27 attempted \x27" ++
                action_type ++ "\x27 on \x27" ++ target ++ "\x27 - DENIED: " ++ ev.reason) }
            1000 }) := by
  have hallow : ev.allowed = false :=
    evaluate_policies_require_approval action_type target agent_id parameters
      store.agents store.policies ev heval hra
  unfold validate_action
  simp only [ha, Option.isNone_some, Bool.false_eq_true, if_false, Option.getD_some]
  rw [if_neg hsusp, heval]
  unfold validate_finish
  simp [hallow, hra]

/-- C10, witness: the low-trust agent of `approvalStore` asking to
`delete_records` triggers the store's `require_approval` rule; the returned
decision is a non-allowed approval request and the medium policy-violation
incident is appended with the same action id. -/
theorem require_approval_denies_and_logs_witness :
    approvalStore.agents "low-agent" = some lowAgent ∧
    lowAgent.status ≠ some "suspended" ∧
    validate_action "tool_call" "delete_records" "low-agent" "" "ctx"
        "act-10" "aud-10" "inc-10" "t-10" approvalStore =
      Except.ok ({ action_id := "act-10", allowed := false,
                   require_approval := some true, reason := "Needs a human",
                   warnings := [] },
        { agents := approvalStore.agents,
          policies := approvalStore.policies,
          audit_log := append_to_json_list approvalStore.audit_log
            { entry_id := "aud-10", action_id := some "act-10", timestamp := "t-10",
              agent_id := "low-agent",
              action := { type := "tool_call", target := "delete_records",
                          parameters := AuditParams.validation "",
                          context := some "ctx" },
              evaluation := { allowed := false, require_approval := some true,
                              reason := "Needs a human" } } 1000,
          incidents := append_to_json_list approvalStore.incidents
            { incident_id := "inc-10", timestamp := "t-10",
              type := "policy_violation", severity := "medium",
              agent_id := some "low-agent", action_id := some "act-10",
              details := some "Agent \x27low-agent\x27 attempted \x27tool_call\x27 on \x27delete_records\x27 - DENIED: Needs a human" }
            1000 }) := by
  refine ⟨rfl, by decide, ?_⟩
  have h := require_approval_denies_and_logs "tool_call" "delete_records" "low-agent"
    "" "ctx" "act-10" "aud-10" "inc-10" "t-10" approvalStore lowAgent
    { allowed := false, require_approval := true, reason := "Needs a human",
      policy_matched := "approval" }
    rfl (by decide) rfl rfl
  exact h
